import Mathlib

/-!
Verification of the ouvrt Rift HMD driver core (src/rift.c) against its
natural-language specification.  The C code is shallowly embedded: machine
integers become `Nat`/`Int` with explicit `% 2^w` where wrap-around matters,
fallible control transfers become `Except`/`Option`, and the transport layer
is an oracle supplying each feature-report round trip's outcome.
-/

/-- Two's-complement reinterpretation of the low 64 bits of a natural
number, as performed by a C cast to `int64_t`. -/
def toInt64 (n : Nat) : Int :=
  if n % 2 ^ 64 < 2 ^ 63 then ((n % 2 ^ 64 : Nat) : Int)
  else ((n % 2 ^ 64 : Nat) : Int) - 2 ^ 64

/-- C `uint64_t` left shift: shift and truncate to 64 bits. -/
def shl64 (n k : Nat) : Nat := (n <<< k) % 2 ^ 64

/-- Arithmetic right shift of a signed value by `k` bits, i.e. floor
division by `2^k` (GCC semantics of `>>` on a negative `int64_t`). -/
def asr (i : Int) (k : Nat) : Int := Int.fdiv i (2 ^ k)

/-- rift.c `unpack_3x21bit`: unpack three signed 21-bit values from one
64-bit word (the numeric value of the big-endian `__be64` field) by
sign-extending the top 21 bits, the next 21, and the bottom 21 (bit 0
unused), each multiplied by the caller-supplied scale factor.  The C
float arithmetic is modelled exactly over `ℚ`. -/
def unpack_3x21bit (scale : ℚ) (xyz : Nat) : ℚ × ℚ × ℚ :=
  (scale * ((asr (toInt64 xyz) 43 : Int) : ℚ),
   scale * ((asr (toInt64 (shl64 xyz 21)) 43 : Int) : ℚ),
   scale * ((asr (toInt64 (shl64 xyz 42)) 43 : Int) : ℚ))

/-- The 21-bit two's-complement encoding of a signed value
(spec: "three signed 21-bit two's-complement values"). -/
def u21 (v : Int) : Nat := (v % 2 ^ 21).toNat

/-- Modelled from the spec: packing three signed 21-bit values into one
64-bit word — the top 21 bits, the next 21, the bottom 21, bit 0 unused —
the encoding that `unpack_3x21bit` is specified to invert. -/
def pack_3x21bit (x y z : Int) : Nat :=
  u21 x * 2 ^ 43 + u21 y * 2 ^ 22 + u21 z * 2

/-- C4: for every triple of signed 21-bit values packed into one 64-bit
word per the spec's layout, `unpack_3x21bit` recovers exactly the three
original values, each multiplied by the caller-supplied scale factor. -/
theorem unpack_3x21bit_pack_3x21bit (scale : ℚ) (x y z : Int)
    (hx : -2 ^ 20 ≤ x ∧ x < 2 ^ 20) (hy : -2 ^ 20 ≤ y ∧ y < 2 ^ 20)
    (hz : -2 ^ 20 ≤ z ∧ z < 2 ^ 20) :
    unpack_3x21bit scale (pack_3x21bit x y z) =
      (scale * (x : ℚ), scale * (y : ℚ), scale * (z : ℚ)) := by
  have hfd : ∀ i : Int, asr i 43 = i / 2 ^ 43 := fun i =>
    Int.fdiv_eq_ediv i (by norm_num)
  have e1 : asr (toInt64 (pack_3x21bit x y z)) 43 = x := by
    rw [hfd]
    simp only [pack_3x21bit, u21, toInt64]
    split <;> omega
  have e2 : asr (toInt64 (shl64 (pack_3x21bit x y z) 21)) 43 = y := by
    rw [hfd]
    simp only [pack_3x21bit, u21, toInt64, shl64, Nat.shiftLeft_eq]
    split <;> omega
  have e3 : asr (toInt64 (shl64 (pack_3x21bit x y z) 42)) 43 = z := by
    rw [hfd]
    simp only [pack_3x21bit, u21, toInt64, shl64, Nat.shiftLeft_eq]
    split <;> omega
  simp only [unpack_3x21bit, e1, e2, e3]

/-- Witness for C4 at a concrete triple. -/
theorem unpack_3x21bit_pack_3x21bit_witness :
    unpack_3x21bit (1 / 10000) (pack_3x21bit 12345 (-678) 0) =
      ((12345 : ℚ) / 10000, (-678 : ℚ) / 10000, 0) := by
  have h := unpack_3x21bit_pack_3x21bit (1 / 10000) 12345 (-678) 0
    (by norm_num) (by norm_num) (by norm_num)
  rw [h]
  norm_num

/-- The two Rift hardware generations (rift.c `enum rift_type`);
`CV1` is the generation-B device with the radio channel. -/
inductive RiftType where
  | DK2
  | CV1
deriving Repr, DecidableEq

/-- Result of rift.c `rift_set_report_rate`: outcome, the stored
`report_rate`/`report_interval` pair after the call, and the
`packet_interval` wire field of the configuration report handed to the
send transfer (`none` when the initial read already failed). -/
structure SetRateResult where
  result : Except Int Unit
  report_rate : Int
  report_interval : Int
  sent_packet_interval : Option Int
deriving Repr

/-- rift.c `rift_set_report_rate`.  The two feature-report transfers are
supplied as oracle outcomes: `get` yields the device's little-endian
`sample_rate` field or a transport error, `send` the outcome of sending
the updated configuration report.  `st` is the stored
(`report_rate`, `report_interval`) pair before the call; C `int`
division is `Int.tdiv`. -/
def rift_set_report_rate (get : Except Int Nat) (send : Except Int Unit)
    (st : Int × Int) (report_rate : Int) : SetRateResult :=
  match get with
  | .error e =>
      { result := .error e, report_rate := st.1, report_interval := st.2,
        sent_packet_interval := none }
  | .ok sample_rate =>
      let r1 : Int :=
        if report_rate > (sample_rate : Int) then (sample_rate : Int) else report_rate
      let r2 : Int := if r1 < 5 then 5 else r1
      let packet_interval : Int := Int.tdiv (sample_rate : Int) r2 - 1
      match send with
      | .error e =>
          { result := .error e, report_rate := st.1, report_interval := st.2,
            sent_packet_interval := some packet_interval }
      | .ok _ =>
          { result := .ok (), report_rate := r2,
            report_interval := Int.tdiv 1000000 r2,
            sent_packet_interval := some packet_interval }

/-- C6: with both transfers succeeding and a device sample rate of at
least 5 Hz, the requested rate is clamped into `[5, sample_rate]`
(stored rate = `max 5 (min requested sample_rate)`), the wire field sent
is `sample_rate / rate - 1` for the clamped rate, and the stored
`report_interval` equals `1000000 / rate` for the clamped stored rate. -/
theorem rift_set_report_rate_spec (sr : Nat) (st : Int × Int) (r : Int)
    (h5 : 5 ≤ sr) :
    (rift_set_report_rate (.ok sr) (.ok ()) st r).result = .ok () ∧
    (rift_set_report_rate (.ok sr) (.ok ()) st r).report_rate =
      max 5 (min r (sr : Int)) ∧
    5 ≤ (rift_set_report_rate (.ok sr) (.ok ()) st r).report_rate ∧
    (rift_set_report_rate (.ok sr) (.ok ()) st r).report_rate ≤ (sr : Int) ∧
    (rift_set_report_rate (.ok sr) (.ok ()) st r).sent_packet_interval =
      some ((sr : Int) / (rift_set_report_rate (.ok sr) (.ok ()) st r).report_rate - 1) ∧
    (rift_set_report_rate (.ok sr) (.ok ()) st r).report_interval =
      1000000 / (rift_set_report_rate (.ok sr) (.ok ()) st r).report_rate := by
  have hsr : (5 : Int) ≤ (sr : Int) := by exact_mod_cast h5
  simp only [rift_set_report_rate]
  have hmax : (if (if r > (sr : Int) then (sr : Int) else r) < 5 then 5
      else if r > (sr : Int) then (sr : Int) else r) = max 5 (min r (sr : Int)) := by
    split_ifs <;> omega
  have hpos : (0 : Int) ≤ max 5 (min r (sr : Int)) := by omega
  rw [hmax]
  refine ⟨by trivial, by trivial, by omega, by omega, ?_, ?_⟩
  · rw [Int.tdiv_eq_ediv (by positivity) hpos]
  · rw [Int.tdiv_eq_ediv (by norm_num) hpos]

/-- Witness for C6: requesting 5000 Hz against a 1000 Hz sample rate
stores 1000 Hz and a 1000 µs interval. -/
theorem rift_set_report_rate_spec_witness :
    (5 : Nat) ≤ 1000 ∧
    (rift_set_report_rate (.ok 1000) (.ok ()) (50, 20000) 5000).report_rate = 1000 ∧
    (rift_set_report_rate (.ok 1000) (.ok ()) (50, 20000) 5000).report_interval = 1000 := by
  have h := rift_set_report_rate_spec 1000 (50, 20000) 5000 (by norm_num)
  refine ⟨by norm_num, ?_, ?_⟩
  · rw [h.2.1]; norm_num
  · rw [h.2.2.2.2.2, h.2.1]; norm_num

/-- The tracking-enable feature report built by rift.c
`rift_send_tracking`.  `blink` selects the branch taken: blinking mode
sends pattern 0 with the auto-increment flag, constant mode pattern 0xff
without it; both set the enable and carrier flags.  The numeric
`exposure_us`/`period_us`/`vsync_offset`/`duty_cycle` constants live in
the missing header rift-hid-reports.h and depend only on `type`, so they
are represented by the `type` field itself. -/
structure TrackingReport where
  type : RiftType
  blink : Bool
  pattern : Nat
  enable : Bool
  use_carrier : Bool
  auto_increment : Bool
deriving Repr, DecidableEq

/-- rift.c `rift_send_tracking`'s report payload. -/
def rift_tracking_report (ty : RiftType) (blink : Bool) : TrackingReport :=
  if blink then
    { type := ty, blink := true, pattern := 0,
      enable := true, use_carrier := true, auto_increment := true }
  else
    { type := ty, blink := false, pattern := 0xff,
      enable := true, use_carrier := true, auto_increment := false }

/-- The part of the device state read and written by
`ouvrt_rift_set_flicker`. -/
structure FlickerState where
  type : RiftType
  flicker : Bool
  active : Bool
deriving Repr, DecidableEq

/-- Observable outcome of `ouvrt_rift_set_flicker`: the new state, the
argument of the `blobwatch_set_flicker` global broadcast if it was
issued, and the list of tracking-enable reports sent over the
transport. -/
structure FlickerResult where
  state : FlickerState
  broadcast : Option Bool
  tracking_sends : List TrackingReport
deriving Repr, DecidableEq

/-- rift.c `ouvrt_rift_set_flicker`. -/
def ouvrt_rift_set_flicker (st : FlickerState) (flicker : Bool) : FlickerResult :=
  if st.flicker = flicker then
    { state := st, broadcast := none, tracking_sends := [] }
  else
    { state := { st with flicker := flicker },
      broadcast := some flicker,
      tracking_sends :=
        if st.active then [rift_tracking_report st.type flicker] else [] }

/-- C9: toggling flicker to a different value always stores the new flag
and issues the global flicker broadcast, regardless of device state;
while inactive no transport call is made, while active exactly one
tracking-enable report is sent and it reflects the new mode. -/
theorem ouvrt_rift_set_flicker_spec (st : FlickerState) (f : Bool)
    (h : st.flicker ≠ f) :
    (ouvrt_rift_set_flicker st f).state.flicker = f ∧
    (ouvrt_rift_set_flicker st f).state.active = st.active ∧
    (ouvrt_rift_set_flicker st f).broadcast = some f ∧
    (st.active = false → (ouvrt_rift_set_flicker st f).tracking_sends = []) ∧
    (st.active = true →
      (ouvrt_rift_set_flicker st f).tracking_sends =
        [rift_tracking_report st.type f] ∧
      (rift_tracking_report st.type f).blink = f ∧
      (rift_tracking_report st.type f).enable = true) := by
  simp only [ouvrt_rift_set_flicker, if_neg h]
  refine ⟨by trivial, by trivial, by trivial, ?_, ?_⟩
  · intro ha; simp [ha]
  · intro ha
    refine ⟨by simp [ha], ?_, ?_⟩ <;> cases f <;> simp [rift_tracking_report]

/-- Witness for C9: enabling flicker on an active CV1 with flicker off. -/
theorem ouvrt_rift_set_flicker_spec_witness :
    (FlickerState.mk RiftType.CV1 false true).flicker ≠ true ∧
    (ouvrt_rift_set_flicker ⟨RiftType.CV1, false, true⟩ true).state.flicker = true ∧
    (ouvrt_rift_set_flicker ⟨RiftType.CV1, false, true⟩ true).broadcast = some true ∧
    (ouvrt_rift_set_flicker ⟨RiftType.CV1, false, true⟩ true).tracking_sends =
      [rift_tracking_report RiftType.CV1 true] := by
  have h := ouvrt_rift_set_flicker_spec ⟨RiftType.CV1, false, true⟩ true (by decide)
  exact ⟨by decide, h.1, h.2.2.1, (h.2.2.2.2 rfl).1⟩

/-- rift.c `rift_get_led_patterns` lines 330-339: parallel bit
compaction collapsing the ten 2-bit symbols of a validated pattern word
into ten single bits (symbol 1 becomes 0, symbol 3 becomes 1).  All
intermediate `uint32_t` values stay below `2^20`, so plain `Nat`
operations are exact. -/
def rift_collapse_pattern (p0 : Nat) : Nat :=
  let p1 := p0 &&& 0xaaaaa
  let p2 := p1 ||| (p1 >>> 1)
  let p3 := p2 &&& 0x66666
  let p4 := p3 ||| (p3 >>> 2)
  let p5 := p4 &&& 0xe1e1e
  let p6 := p5 ||| (p5 >>> 4)
  let p7 := p6 &&& 0xe01fe
  let p8 := p7 ||| (p7 >>> 8)
  (p8 >>> 1) &&& 0x3ff

/-- rift.c `rift_get_led_patterns`, validation and decoding of one LED's
blink-pattern word: the reported symbol length must be 10 and the
pattern field must satisfy `(pattern & ~0xaaaaa) == 0x55555` (on 32-bit
int `~0xaaaaa` is `0xfff55555`), i.e. every 2-bit symbol is 1 or 3 and
the upper 12 bits are clear; any violation is a protocol error
(`none`, the C code returns -1 and stores nothing). -/
def rift_decode_led_pattern (pattern_length pattern : Nat) : Option Nat :=
  if pattern_length ≠ 10 then none
  else if pattern &&& 0xfff55555 ≠ 0x55555 then none
  else some (rift_collapse_pattern pattern)

/-- Modelled from the spec: collapsing the low `k` 2-bit symbols to one
bit each, symbol 3 giving bit 1 and anything else bit 0 ("pack 1→0,
3→1"), least-significant symbol first. -/
def ledBitsAux : Nat → Nat → Nat
  | 0, _ => 0
  | k + 1, p => (if p % 4 = 3 then 1 else 0) + 2 * ledBitsAux k (p / 4)

/-- Modelled from the spec: the 10-bit value the spec says an accepted
pattern word collapses to. -/
def led_pattern_bits (p : Nat) : Nat := ledBitsAux 10 p

/-- Expanding `k` bits back into `k` base-4 symbols (bit 0 to symbol 1,
bit 1 to symbol 3); the inverse of `ledBitsAux` on valid words. -/
def ledSpreadAux : Nat → Nat → Nat
  | 0, _ => 0
  | k + 1, b => (if b % 2 = 1 then 3 else 1) + 4 * ledSpreadAux k (b / 2)

set_option maxRecDepth 100000 in
theorem collapse_ledSpread : ∀ b < 1024,
    rift_collapse_pattern (ledSpreadAux 10 b) = b := by decide

theorem ledSpread_ledBits (k : Nat) :
    ∀ p, p < 4 ^ k → (∀ i < k, p / 4 ^ i % 4 = 1 ∨ p / 4 ^ i % 4 = 3) →
      ledSpreadAux k (ledBitsAux k p) = p ∧ ledBitsAux k p < 2 ^ k := by
  induction k with
  | zero =>
    intro p hp _
    simp only [ledSpreadAux, ledBitsAux]
    omega
  | succ k ih =>
    intro p hp hd
    have h0 : p % 4 = 1 ∨ p % 4 = 3 := by
      have := hd 0 (by omega)
      simpa using this
    have hp' : p / 4 < 4 ^ k := by
      rw [pow_succ] at hp; omega
    have hd' : ∀ i < k, p / 4 / 4 ^ i % 4 = 1 ∨ p / 4 / 4 ^ i % 4 = 3 := by
      intro i hi
      have h := hd (i + 1) (by omega)
      rw [Nat.div_div_eq_div_mul]
      rwa [pow_succ'] at h
    obtain ⟨ihs, ihb⟩ := ih (p / 4) hp' hd'
    constructor
    · rcases h0 with h | h
      · have hB : ledBitsAux (k + 1) p = 2 * ledBitsAux k (p / 4) := by
          simp [ledBitsAux, h]
        rw [hB]
        simp only [ledSpreadAux]
        rw [if_neg (by omega), Nat.mul_div_cancel_left _ (by norm_num), ihs]
        omega
      · have hB : ledBitsAux (k + 1) p = 1 + 2 * ledBitsAux k (p / 4) := by
          simp [ledBitsAux, h]
        rw [hB]
        simp only [ledSpreadAux]
        rw [if_pos (by omega)]
        have hdiv : (1 + 2 * ledBitsAux k (p / 4)) / 2 = ledBitsAux k (p / 4) := by
          omega
        rw [hdiv, ihs]
        omega
    · simp only [ledBitsAux]
      rw [pow_succ]
      split <;> omega

/-- Bitwise and distributes over splitting both operands at a
power-of-two boundary. -/
theorem land_split (n a b c d : Nat) (ha : a < 2 ^ n) (hc : c < 2 ^ n) :
    (2 ^ n * b + a) &&& (2 ^ n * d + c) = 2 ^ n * (b &&& d) + (a &&& c) := by
  apply Nat.eq_of_testBit_eq
  intro i
  have hac : a &&& c < 2 ^ n := Nat.lt_of_le_of_lt Nat.and_le_left ha
  rw [Nat.testBit_and, Nat.testBit_mul_pow_two_add _ ha,
    Nat.testBit_mul_pow_two_add _ hc, Nat.testBit_mul_pow_two_add _ hac]
  by_cases hi : i < n
  · simp [hi]
  · simp [hi, Nat.testBit_and]

/-- The mask with `k` base-4 digits equal to 1; `onesQ 10 = 0x55555`. -/
def onesQ : Nat → Nat
  | 0 => 0
  | k + 1 => 4 * onesQ k + 1

theorem land_onesQ_iff (k : Nat) :
    ∀ l, (l &&& onesQ k = onesQ k ↔ ∀ i < k, l / 4 ^ i % 2 = 1) := by
  induction k with
  | zero =>
    intro l
    constructor
    · intro _ i hi
      exact absurd hi (Nat.not_lt_zero i)
    · intro _
      simp [onesQ]
  | succ k ih =>
    intro l
    have hsplit : l &&& onesQ (k + 1) =
        2 ^ 2 * ((l / 4) &&& onesQ k) + (l % 4 &&& 1) := by
      have hl : l = 2 ^ 2 * (l / 4) + l % 4 := by omega
      have hm : onesQ (k + 1) = 2 ^ 2 * onesQ k + 1 := by
        simp only [onesQ]; omega
      conv_lhs => rw [hl, hm]
      exact land_split 2 (l % 4) (l / 4) 1 (onesQ k) (by omega) (by norm_num)
    have h41 : l % 4 &&& 1 = l % 2 := by
      rw [Nat.and_one_is_mod]
      omega
    have hle : (l / 4) &&& onesQ k ≤ onesQ k := Nat.and_le_right
    constructor
    · intro h
      have hX : (l / 4) &&& onesQ k = onesQ k ∧ l % 2 = 1 := by
        rw [hsplit, h41] at h
        simp only [onesQ] at h ⊢
        omega
      intro i hi
      match i with
      | 0 => simpa using hX.2
      | i + 1 =>
        have hb := (ih (l / 4)).mp hX.1 i (by omega)
        rw [pow_succ', ← Nat.div_div_eq_div_mul]
        exact hb
    · intro h
      rw [hsplit, h41]
      have h2 : l % 2 = 1 := by simpa using h 0 (by omega)
      have hX : (l / 4) &&& onesQ k = onesQ k := by
        refine (ih (l / 4)).mpr fun i hi => ?_
        have hb := h (i + 1) (by omega)
        rw [pow_succ', ← Nat.div_div_eq_div_mul] at hb
        exact hb
      rw [hX, h2]
      simp only [onesQ]
      omega

/-- The validation test of `rift_get_led_patterns` accepts exactly the
words below `2^20` whose ten 2-bit symbols are each 1 or 3. -/
theorem pattern_check_iff (p : Nat) (hp : p < 2 ^ 32) :
    p &&& 0xfff55555 = 0x55555 ↔
      (p < 2 ^ 20 ∧ ∀ i < 10, p / 4 ^ i % 4 = 1 ∨ p / 4 ^ i % 4 = 3) := by
  have hdecomp : p = 2 ^ 20 * (p / 2 ^ 20) + p % 2 ^ 20 := by omega
  have hmask : (0xfff55555 : Nat) = 2 ^ 20 * 0xfff + 0x55555 := by norm_num
  have hsplit : p &&& 0xfff55555 =
      2 ^ 20 * ((p / 2 ^ 20) &&& 0xfff) + ((p % 2 ^ 20) &&& 0x55555) := by
    conv_lhs => rw [hdecomp, hmask]
    exact land_split 20 (p % 2 ^ 20) (p / 2 ^ 20) 0x55555 0xfff (by omega) (by norm_num)
  have hhigh : (p / 2 ^ 20) &&& 0xfff = p / 2 ^ 20 := by
    have h1 : (0xfff : Nat) = 2 ^ 12 - 1 := by norm_num
    rw [h1, Nat.and_pow_two_sub_one_eq_mod]
    omega
  have hle : (p % 2 ^ 20) &&& 0x55555 ≤ 0x55555 :=
    le_trans Nat.and_le_right (by norm_num)
  have h5 : onesQ 10 = 0x55555 := by norm_num [onesQ]
  constructor
  · intro h
    rw [hsplit, hhigh] at h
    have hp0 : p / 2 ^ 20 = 0 ∧ (p % 2 ^ 20) &&& 0x55555 = 0x55555 := by omega
    have hplt : p < 2 ^ 20 := by omega
    refine ⟨hplt, ?_⟩
    have hmod : p % 2 ^ 20 = p := by omega
    rw [hmod] at hp0
    have hbits := (land_onesQ_iff 10 p).mp (by rw [h5]; exact hp0.2)
    intro i hi
    have h2 := hbits i hi
    generalize p / 4 ^ i = q at h2 ⊢
    omega
  · rintro ⟨hplt, hd⟩
    rw [hsplit, hhigh]
    have h0 : p / 2 ^ 20 = 0 := by omega
    have hmod : p % 2 ^ 20 = p := by omega
    have hbits : ∀ i < 10, p / 4 ^ i % 2 = 1 := by
      intro i hi
      have hq := hd i hi
      generalize p / 4 ^ i = q at hq ⊢
      omega
    have hand := (land_onesQ_iff 10 p).mpr hbits
    rw [h5] at hand
    rw [h0, hmod, hand]
    norm_num

/-- C3: LED blink-pattern decoding accepts a word if and only if the
reported symbol length is 10 and the word consists of ten 2-bit symbols
each equal to 1 or 3 (in particular all bits above the ten symbols are
clear, `p < 2^20`); an accepted word is collapsed (symbol 1 to bit 0,
symbol 3 to bit 1) to a 10-bit value in `[0, 1023]`, and any word or
length violating the constraint yields an error, never a value. -/
theorem rift_decode_led_pattern_spec (plen p : Nat) (hp : p < 2 ^ 32) :
    ((rift_decode_led_pattern plen p).isSome = true ↔
      plen = 10 ∧ p < 2 ^ 20 ∧ ∀ i < 10, p / 4 ^ i % 4 = 1 ∨ p / 4 ^ i % 4 = 3) ∧
    ∀ v, rift_decode_led_pattern plen p = some v →
      v = led_pattern_bits p ∧ v ≤ 1023 := by
  by_cases hlen : plen = 10
  · subst hlen
    by_cases hchk : p &&& 0xfff55555 = 0x55555
    · have hvalid := (pattern_check_iff p hp).mp hchk
      have hlt : p < 4 ^ 10 := by
        have h20 := hvalid.1
        norm_num at h20 ⊢
        omega
      have hsb := ledSpread_ledBits 10 p hlt hvalid.2
      have hb1024 : ledBitsAux 10 p < 1024 := by
        have hb := hsb.2
        norm_num at hb
        exact hb
      have hcol : rift_collapse_pattern p = led_pattern_bits p := by
        conv_lhs => rw [← hsb.1]
        exact collapse_ledSpread (ledBitsAux 10 p) hb1024
      have hdec : rift_decode_led_pattern 10 p =
          some (rift_collapse_pattern p) := by
        simp [rift_decode_led_pattern, hchk]
      refine ⟨?_, ?_⟩
      · rw [hdec]
        exact iff_of_true rfl ⟨rfl, hvalid.1, hvalid.2⟩
      · intro v hv
        rw [hdec] at hv
        have hveq : v = rift_collapse_pattern p := (Option.some.inj hv).symm
        subst hveq
        rw [hcol]
        exact ⟨rfl, by unfold led_pattern_bits; omega⟩
    · have hdec : rift_decode_led_pattern 10 p = none := by
        simp [rift_decode_led_pattern, hchk]
      refine ⟨?_, ?_⟩
      · rw [hdec]
        constructor
        · intro hcontra
          simp at hcontra
        · rintro ⟨-, hrest⟩
          exact absurd ((pattern_check_iff p hp).mpr hrest) hchk
      · intro v hv
        rw [hdec] at hv
        cases hv
  · have hdec : rift_decode_led_pattern plen p = none := by
      simp [rift_decode_led_pattern, hlen]
    refine ⟨?_, ?_⟩
    · rw [hdec]
      constructor
      · intro hcontra
        simp at hcontra
      · rintro ⟨h10, -⟩
        exact absurd h10 hlen
    · intro v hv
      rw [hdec] at hv
      cases hv

/-- Witness for C3: the all-dark word 0x55555 decodes to pattern 0. -/
theorem rift_decode_led_pattern_spec_witness :
    (0x55555 : Nat) < 2 ^ 32 ∧
    rift_decode_led_pattern 10 0x55555 = some 0 := by
  have hd : rift_decode_led_pattern 10 0x55555 =
      some (rift_collapse_pattern 0x55555) := by decide
  have h := (rift_decode_led_pattern_spec 10 0x55555 (by norm_num)).2
    (rift_collapse_pattern 0x55555) hd
  refine ⟨by norm_num, ?_⟩
  rw [hd, h.1]
  decide

/-- C cast to `int32_t` of the low 32 bits of a value. -/
def toInt32 (n : Nat) : Int :=
  if n % 2 ^ 32 < 2 ^ 31 then ((n % 2 ^ 32 : Nat) : Int)
  else ((n % 2 ^ 32 : Nat) : Int) - 2 ^ 32

/-- C cast to `int16_t` of a 16-bit little-endian field's value. -/
def toInt16 (n : Nat) : Int :=
  if n % 2 ^ 16 < 2 ^ 15 then ((n % 2 ^ 16 : Nat) : Int)
  else ((n % 2 ^ 16 : Nat) : Int) - 2 ^ 16

/-- rift.c line 551, `dt = sample_timestamp - rift->last_sample_timestamp`:
`uint32_t` minus `uint64_t` is computed mod `2^64`, truncated to 32 bits
by the `int32_t` destination and reinterpreted as signed; equivalently
the 32-bit wrapping difference, signed. -/
def u32diff (a b : Nat) : Int :=
  toInt32 ((a % 2 ^ 32 + 2 ^ 32 - b % 2 ^ 32) % 2 ^ 32)

/-- rift.c line 553, `rift->last_sample_timestamp += dt`:
`uint64_t += int32_t` adds the sign-extended delta mod `2^64`. -/
def u64add (a : Nat) (d : Int) : Nat := (((a : Int) + d) % 2 ^ 64).toNat

/-- The decoder-owned part of `struct _OuvrtRift` read and written by
`rift_decode_sensor_message` (sample-clock state plus the negotiated
rate). -/
structure RiftDecodeState where
  report_rate : Int
  report_interval : Int
  last_message_time : Nat
  last_sample_timestamp : Nat
  last_exposure_timestamp : Nat
  last_exposure_count : Int
deriving Repr, DecidableEq

/-- One `struct rift_sensor_message`, with each little-endian wire field
already assembled to its numeric value (widths: `num_samples`,
`frame_id`, `led_pattern_phase` 8 bits; `sample_count`, `temperature`,
`mag*`, `frame_count`, `exposure_count` 16 bits; `timestamp`,
`frame_timestamp`, `exposure_timestamp` 32 bits; the IMU accel/gyro
fields are big-endian 64-bit words). -/
structure RiftSensorMessage where
  num_samples : Nat
  sample_count : Nat
  temperature : Nat
  timestamp : Nat
  mag0 : Nat
  mag1 : Nat
  mag2 : Nat
  frame_count : Nat
  frame_timestamp : Nat
  frame_id : Nat
  led_pattern_phase : Nat
  exposure_count : Nat
  exposure_timestamp : Nat
  sample0_accel : Nat
  sample0_gyro : Nat
  sample1_accel : Nat
  sample1_gyro : Nat
deriving Repr, DecidableEq

/-- One decoded IMU sample as forwarded to telemetry and the pose
integrator (`struct imu_sample`). -/
structure RiftImuSample where
  time : ℚ
  temperature : ℚ
  magnetic_field : ℚ × ℚ × ℚ
  acceleration : ℚ × ℚ × ℚ
  angular_velocity : ℚ × ℚ × ℚ
deriving Repr, DecidableEq

/-- The non-fatal diagnostic printed for a message rejected by the
jitter gate (rift.c lines 560-569). -/
inductive RiftDiag where
  | outOfOrder
  | lost (count : Int)
  | jitter
deriving Repr, DecidableEq

/-- Observable outcome of one `rift_decode_sensor_message` call: the
updated decoder state, the IMU samples forwarded (with `pose_dt` the
µs-to-seconds elapsed-time argument handed to `pose_update` for each),
the exposure notification handed to the tracker as
(exposure_timestamp, exposure_time, led_pattern_phase) if any, and the
gap/jitter diagnostic if any. -/
structure RiftDecodeResult where
  state : RiftDecodeState
  samples : List RiftImuSample
  pose_dt : ℚ
  exposure : Option (Nat × Nat × Nat)
  diag : Option RiftDiag
deriving Repr, DecidableEq

/-- rift.c `rift_decode_sensor_message` for a full-length message
(`message_time` is the capture timestamp in nanoseconds, a `uint64_t`;
short buffers return before reaching any of this).  The division
computing the exposure time is `uint64_t` division (division by zero,
unreachable for gate-accepted positive deltas, is C undefined behaviour
and modelled as `Nat` division by zero). -/
def rift_decode_sensor_message (s : RiftDecodeState) (m : RiftSensorMessage)
    (message_time : Nat) : RiftDecodeResult :=
  let dt : Int := u32diff m.timestamp s.last_sample_timestamp
  let lst' : Nat := u64add s.last_sample_timestamp dt
  if dt < (m.num_samples : Int) * s.report_interval - 75 ∨
      dt > (m.num_samples : Int) * s.report_interval + 75 then
    let s' := { s with last_sample_timestamp := lst',
                       last_message_time := message_time }
    if ((lst' : Int) - dt) % 2 ^ 64 = 0 then
      { state := s', samples := [], pose_dt := 0, exposure := none, diag := none }
    else
      { state := s', samples := [], pose_dt := 0, exposure := none,
        diag := some (if dt < 0 then RiftDiag.outOfOrder
          else if dt + 1 ≥ ((m.num_samples : Int) + 1) * s.report_interval then
            RiftDiag.lost (Int.tdiv (dt + 1) s.report_interval - (m.num_samples : Int))
          else RiftDiag.jitter) }
  else
    let mk : Nat → Nat → RiftImuSample := fun accel gyro =>
      { time := (m.timestamp : ℚ) / 1000000,
        temperature := ((toInt16 m.temperature : Int) : ℚ) / 100,
        magnetic_field := (((toInt16 m.mag0 : Int) : ℚ) / 10000,
          ((toInt16 m.mag1 : Int) : ℚ) / 10000,
          ((toInt16 m.mag2 : Int) : ℚ) / 10000),
        acceleration := unpack_3x21bit (1 / 10000) accel,
        angular_velocity := unpack_3x21bit (1 / 10000) gyro }
    let samples : List RiftImuSample :=
      if m.num_samples > 1 then
        [mk m.sample0_accel m.sample0_gyro, mk m.sample1_accel m.sample1_gyro]
      else [mk m.sample0_accel m.sample0_gyro]
    let count : Nat := if m.num_samples > 1 then 2 else 1
    let pose_dt : ℚ := 1 / 1000000 / (count : ℚ) * ((dt : Int) : ℚ)
    if (m.exposure_count : Int) ≠ s.last_exposure_count then
      let sample_expo_dt : Int := u32diff m.timestamp m.exposure_timestamp
      let delta_mt : Nat :=
        (((message_time : Int) - (s.last_message_time : Int)) % 2 ^ 64).toNat
      let prod : Nat := delta_mt * (sample_expo_dt % 2 ^ 64).toNat % 2 ^ 64
      let quot : Nat := prod / (dt % 2 ^ 64).toNat
      let exposure_time : Nat := (((message_time : Int) - (quot : Int)) % 2 ^ 64).toNat
      { state := { s with last_sample_timestamp := lst',
                          last_message_time := message_time,
                          last_exposure_timestamp := m.exposure_timestamp,
                          last_exposure_count := (m.exposure_count : Int) },
        samples := samples, pose_dt := pose_dt,
        exposure := some (m.exposure_timestamp, exposure_time, m.led_pattern_phase),
        diag := none }
    else
      { state := { s with last_sample_timestamp := lst',
                          last_message_time := message_time },
        samples := samples, pose_dt := pose_dt, exposure := none, diag := none }

/-- Counterexample to C1 as stated: with report_interval 1000 µs,
previous unwrapped clock 1000 and message timestamp 6000, the delta
5000 µs lies outside the window [925, 1075], the message is rejected
(no samples, loss diagnostic), yet the unwrapped 64-bit sample clock is
advanced from 1000 to 6000 — line 553 of rift.c runs before the gate. -/
theorem rift_decode_reject_advances_clock :
    u32diff 6000 1000 = 5000 ∧
    (rift_decode_sensor_message
      { report_rate := 1000, report_interval := 1000, last_message_time := 0,
        last_sample_timestamp := 1000, last_exposure_timestamp := 0,
        last_exposure_count := 0 }
      { num_samples := 1, sample_count := 0, temperature := 0, timestamp := 6000,
        mag0 := 0, mag1 := 0, mag2 := 0, frame_count := 0, frame_timestamp := 0,
        frame_id := 0, led_pattern_phase := 0, exposure_count := 0,
        exposure_timestamp := 0, sample0_accel := 0, sample0_gyro := 0,
        sample1_accel := 0, sample1_gyro := 0 } 5).samples = [] ∧
    (rift_decode_sensor_message
      { report_rate := 1000, report_interval := 1000, last_message_time := 0,
        last_sample_timestamp := 1000, last_exposure_timestamp := 0,
        last_exposure_count := 0 }
      { num_samples := 1, sample_count := 0, temperature := 0, timestamp := 6000,
        mag0 := 0, mag1 := 0, mag2 := 0, frame_count := 0, frame_timestamp := 0,
        frame_id := 0, led_pattern_phase := 0, exposure_count := 0,
        exposure_timestamp := 0, sample0_accel := 0, sample0_gyro := 0,
        sample1_accel := 0, sample1_gyro := 0 } 5).diag = some (RiftDiag.lost 4) ∧
    (rift_decode_sensor_message
      { report_rate := 1000, report_interval := 1000, last_message_time := 0,
        last_sample_timestamp := 1000, last_exposure_timestamp := 0,
        last_exposure_count := 0 }
      { num_samples := 1, sample_count := 0, temperature := 0, timestamp := 6000,
        mag0 := 0, mag1 := 0, mag2 := 0, frame_count := 0, frame_timestamp := 0,
        frame_id := 0, led_pattern_phase := 0, exposure_count := 0,
        exposure_timestamp := 0, sample0_accel := 0, sample0_gyro := 0,
        sample1_accel := 0, sample1_gyro := 0 } 5).state.last_sample_timestamp
      = 6000 := by
  refine ⟨by decide, ?_, ?_, ?_⟩ <;> decide

/-- C1 (amended): for every message whose delta falls outside the
accepted jitter window, the decoder emits no IMU samples, advances no
exposure bookkeeping, and updates only the message-time anchor and the
unwrapped 64-bit sample clock — the clock is advanced by the wrapped
32-bit delta (to track the message's timestamp), not left unchanged. -/
theorem rift_decode_sensor_message_reject_spec (s : RiftDecodeState)
    (m : RiftSensorMessage) (T : Nat)
    (h : u32diff m.timestamp s.last_sample_timestamp <
          (m.num_samples : Int) * s.report_interval - 75 ∨
        u32diff m.timestamp s.last_sample_timestamp >
          (m.num_samples : Int) * s.report_interval + 75) :
    (rift_decode_sensor_message s m T).samples = [] ∧
    (rift_decode_sensor_message s m T).exposure = none ∧
    (rift_decode_sensor_message s m T).state.last_message_time = T ∧
    (rift_decode_sensor_message s m T).state.last_sample_timestamp =
      u64add s.last_sample_timestamp (u32diff m.timestamp s.last_sample_timestamp) ∧
    (rift_decode_sensor_message s m T).state.report_rate = s.report_rate ∧
    (rift_decode_sensor_message s m T).state.report_interval = s.report_interval ∧
    (rift_decode_sensor_message s m T).state.last_exposure_timestamp =
      s.last_exposure_timestamp ∧
    (rift_decode_sensor_message s m T).state.last_exposure_count =
      s.last_exposure_count := by
  simp only [rift_decode_sensor_message]
  rw [if_pos h]
  split <;> exact ⟨rfl, rfl, rfl, rfl, rfl, rfl, rfl, rfl⟩

/-- Witness for C1's amended theorem at the counterexample input. -/
theorem rift_decode_sensor_message_reject_spec_witness :
    (u32diff 6000 1000 < (1 : Int) * 1000 - 75 ∨
      u32diff 6000 1000 > (1 : Int) * 1000 + 75) ∧
    (rift_decode_sensor_message
      { report_rate := 1000, report_interval := 1000, last_message_time := 7,
        last_sample_timestamp := 1000, last_exposure_timestamp := 3,
        last_exposure_count := 2 }
      { num_samples := 1, sample_count := 0, temperature := 0, timestamp := 6000,
        mag0 := 0, mag1 := 0, mag2 := 0, frame_count := 0, frame_timestamp := 0,
        frame_id := 0, led_pattern_phase := 0, exposure_count := 9,
        exposure_timestamp := 4, sample0_accel := 0, sample0_gyro := 0,
        sample1_accel := 0, sample1_gyro := 0 } 5).exposure = none ∧
    (rift_decode_sensor_message
      { report_rate := 1000, report_interval := 1000, last_message_time := 7,
        last_sample_timestamp := 1000, last_exposure_timestamp := 3,
        last_exposure_count := 2 }
      { num_samples := 1, sample_count := 0, temperature := 0, timestamp := 6000,
        mag0 := 0, mag1 := 0, mag2 := 0, frame_count := 0, frame_timestamp := 0,
        frame_id := 0, led_pattern_phase := 0, exposure_count := 9,
        exposure_timestamp := 4, sample0_accel := 0, sample0_gyro := 0,
        sample1_accel := 0, sample1_gyro := 0 } 5).state.last_exposure_count = 2 := by
  have h := rift_decode_sensor_message_reject_spec
    { report_rate := 1000, report_interval := 1000, last_message_time := 7,
      last_sample_timestamp := 1000, last_exposure_timestamp := 3,
      last_exposure_count := 2 }
    { num_samples := 1, sample_count := 0, temperature := 0, timestamp := 6000,
      mag0 := 0, mag1 := 0, mag2 := 0, frame_count := 0, frame_timestamp := 0,
      frame_id := 0, led_pattern_phase := 0, exposure_count := 9,
      exposure_timestamp := 4, sample0_accel := 0, sample0_gyro := 0,
      sample1_accel := 0, sample1_gyro := 0 } 5 (by decide)
  exact ⟨by decide, h.2.1, h.2.2.2.2.2.2.2⟩

/-- C10: every message accepted by the jitter gate yields exactly 2
decoded-and-forwarded IMU samples when its `num_samples` byte exceeds 1
and exactly 1 otherwise — in particular a `num_samples = 0` message
still emits one sample when its delta passes the gate for 0 samples. -/
theorem rift_decode_sensor_message_sample_count (s : RiftDecodeState)
    (m : RiftSensorMessage) (T : Nat)
    (h : ¬(u32diff m.timestamp s.last_sample_timestamp <
          (m.num_samples : Int) * s.report_interval - 75 ∨
        u32diff m.timestamp s.last_sample_timestamp >
          (m.num_samples : Int) * s.report_interval + 75)) :
    (rift_decode_sensor_message s m T).samples.length =
      if m.num_samples > 1 then 2 else 1 := by
  simp only [rift_decode_sensor_message]
  rw [if_neg h]
  split <;> by_cases hn : m.num_samples > 1 <;> simp [hn]

/-- Witness for C10: a `num_samples = 0` message with delta 0 passes
the gate (window [-75, 75]) and emits exactly one sample. -/
theorem rift_decode_sensor_message_sample_count_witness :
    ¬(u32diff 500 500 < ((0 : Nat) : Int) * 1000 - 75 ∨
      u32diff 500 500 > ((0 : Nat) : Int) * 1000 + 75) ∧
    (rift_decode_sensor_message
      { report_rate := 1000, report_interval := 1000, last_message_time := 0,
        last_sample_timestamp := 500, last_exposure_timestamp := 0,
        last_exposure_count := 0 }
      { num_samples := 0, sample_count := 0, temperature := 0, timestamp := 500,
        mag0 := 0, mag1 := 0, mag2 := 0, frame_count := 0, frame_timestamp := 0,
        frame_id := 0, led_pattern_phase := 0, exposure_count := 0,
        exposure_timestamp := 0, sample0_accel := 0, sample0_gyro := 0,
        sample1_accel := 0, sample1_gyro := 0 } 9).samples.length = 1 := by
  have h := rift_decode_sensor_message_sample_count
    { report_rate := 1000, report_interval := 1000, last_message_time := 0,
      last_sample_timestamp := 500, last_exposure_timestamp := 0,
      last_exposure_count := 0 }
    { num_samples := 0, sample_count := 0, temperature := 0, timestamp := 500,
      mag0 := 0, mag1 := 0, mag2 := 0, frame_count := 0, frame_timestamp := 0,
      frame_id := 0, led_pattern_phase := 0, exposure_count := 0,
      exposure_timestamp := 0, sample0_accel := 0, sample0_gyro := 0,
      sample1_accel := 0, sample1_gyro := 0 } 9 (by decide)
  refine ⟨by decide, ?_⟩
  rw [h]
  decide

/-- A forward step of less than `2^31` µs is recovered exactly by the
wrapping 32-bit signed difference. -/
theorem u32diff_add (b d : Nat) (hd : d < 2 ^ 31) :
    u32diff ((b + d) % 2 ^ 32) b = (d : Int) := by
  simp only [u32diff, toInt32]
  split <;> omega

/-- rift.c line 558: after `last_sample_timestamp += dt`, the test
`last_sample_timestamp - dt == 0` (in `uint64_t` arithmetic) holds
exactly when the clock was 0 before the update. -/
theorem u64add_sub_zero_iff (a : Nat) (d : Int) (ha : a < 2 ^ 64) :
    ((((u64add a d : Nat) : Int) - d) % 2 ^ 64 = 0 ↔ a = 0) := by
  simp only [u64add]
  omega

/-- C2: a message whose delta is exactly `I*(num_samples+5)` — five
extra samples' worth — is rejected by the gate and classified as sample
loss with an inferred dropped-sample count of `(dt+1)/I - num_samples =
5`, emitting zero IMU samples.  Hypotheses pin the operating range: a
report interval of at least 16 µs (equivalently a report rate of at
most 62500 Hz; the driver uses 1000 µs) and a nonzero unwrapped clock
(a zero clock is the silent start-up resynchronisation). -/
theorem rift_decode_sensor_message_loss_spec (s : RiftDecodeState)
    (m : RiftSensorMessage) (T I n : Nat)
    (hI : s.report_interval = (I : Int)) (hI16 : 16 ≤ I) (hImax : I ≤ 200000)
    (hn : m.num_samples = n) (hn255 : n ≤ 255)
    (hlst : s.last_sample_timestamp ≠ 0)
    (hlst64 : s.last_sample_timestamp < 2 ^ 64)
    (hts : m.timestamp = (s.last_sample_timestamp + I * (n + 5)) % 2 ^ 32) :
    (rift_decode_sensor_message s m T).samples = [] ∧
    (rift_decode_sensor_message s m T).diag = some (RiftDiag.lost 5) := by
  have hdlt : I * (n + 5) < 2 ^ 31 := by
    have h1 : I * (n + 5) ≤ 200000 * 260 := Nat.mul_le_mul hImax (by omega)
    omega
  have hdt : u32diff m.timestamp s.last_sample_timestamp =
      ((I * (n + 5) : Nat) : Int) := by
    rw [hts]
    exact u32diff_add s.last_sample_timestamp (I * (n + 5)) hdlt
  have hIne : ((I : Nat) : Int) ≠ 0 := by
    have : (16 : Int) ≤ ((I : Nat) : Int) := by exact_mod_cast hI16
    omega
  have hgate : u32diff m.timestamp s.last_sample_timestamp <
        (m.num_samples : Int) * s.report_interval - 75 ∨
      u32diff m.timestamp s.last_sample_timestamp >
        (m.num_samples : Int) * s.report_interval + 75 := by
    right
    rw [hdt, hI, hn]
    push_cast
    have h16 : (16 : Int) ≤ (I : Int) := by exact_mod_cast hI16
    nlinarith
  have hnz : ¬((((u64add s.last_sample_timestamp
      (u32diff m.timestamp s.last_sample_timestamp) : Nat) : Int) -
      u32diff m.timestamp s.last_sample_timestamp) % 2 ^ 64 = 0) := by
    rw [u64add_sub_zero_iff _ _ hlst64]
    exact hlst
  have hnonneg : ¬(u32diff m.timestamp s.last_sample_timestamp < 0) := by
    rw [hdt]
    omega
  have hloss : u32diff m.timestamp s.last_sample_timestamp + 1 ≥
      ((m.num_samples : Int) + 1) * s.report_interval := by
    rw [hdt, hI, hn]
    push_cast
    have h16 : (16 : Int) ≤ (I : Int) := by exact_mod_cast hI16
    nlinarith
  have htdiv : Int.tdiv (u32diff m.timestamp s.last_sample_timestamp + 1)
      s.report_interval - (m.num_samples : Int) = 5 := by
    rw [hdt, hI, hn]
    have h16 : (16 : Int) ≤ ((I : Nat) : Int) := by exact_mod_cast hI16
    rw [Int.tdiv_eq_ediv (by push_cast; positivity) (by omega)]
    have hsplit : ((I * (n + 5) : Nat) : Int) + 1 =
        1 + ((n : Int) + 5) * ((I : Nat) : Int) := by
      push_cast
      ring
    rw [hsplit, Int.add_mul_ediv_right 1 ((n : Int) + 5) hIne,
      Int.ediv_eq_zero_of_lt (by norm_num) (by omega)]
    ring
  simp only [rift_decode_sensor_message]
  rw [if_pos hgate, if_neg hnz, if_neg hnonneg, if_pos hloss, htdiv]
  exact ⟨rfl, rfl⟩

/-- Witness for C2: interval 1000 µs, one-sample message arriving
6000 µs after the previous clock value 1000 reports a loss of 5. -/
theorem rift_decode_sensor_message_loss_spec_witness :
    (rift_decode_sensor_message
      { report_rate := 1000, report_interval := 1000, last_message_time := 0,
        last_sample_timestamp := 1000, last_exposure_timestamp := 0,
        last_exposure_count := 0 }
      { num_samples := 1, sample_count := 0, temperature := 0, timestamp := 7000,
        mag0 := 0, mag1 := 0, mag2 := 0, frame_count := 0, frame_timestamp := 0,
        frame_id := 0, led_pattern_phase := 0, exposure_count := 0,
        exposure_timestamp := 0, sample0_accel := 0, sample0_gyro := 0,
        sample1_accel := 0, sample1_gyro := 0 } 11).samples = [] ∧
    (rift_decode_sensor_message
      { report_rate := 1000, report_interval := 1000, last_message_time := 0,
        last_sample_timestamp := 1000, last_exposure_timestamp := 0,
        last_exposure_count := 0 }
      { num_samples := 1, sample_count := 0, temperature := 0, timestamp := 7000,
        mag0 := 0, mag1 := 0, mag2 := 0, frame_count := 0, frame_timestamp := 0,
        frame_id := 0, led_pattern_phase := 0, exposure_count := 0,
        exposure_timestamp := 0, sample0_accel := 0, sample0_gyro := 0,
        sample1_accel := 0, sample1_gyro := 0 } 11).diag =
      some (RiftDiag.lost 5) := by
  exact rift_decode_sensor_message_loss_spec
    { report_rate := 1000, report_interval := 1000, last_message_time := 0,
      last_sample_timestamp := 1000, last_exposure_timestamp := 0,
      last_exposure_count := 0 }
    { num_samples := 1, sample_count := 0, temperature := 0, timestamp := 7000,
      mag0 := 0, mag1 := 0, mag2 := 0, frame_count := 0, frame_timestamp := 0,
      frame_id := 0, led_pattern_phase := 0, exposure_count := 0,
      exposure_timestamp := 0, sample0_accel := 0, sample0_gyro := 0,
      sample1_accel := 0, sample1_gyro := 0 } 11 1000 1
    (by decide) (by decide) (by decide) (by decide) (by decide)
    (by decide) (by decide) (by decide)

/-- The wrapping 32-bit signed difference always lies in
`[-2^31, 2^31)`. -/
theorem u32diff_bounds (a b : Nat) :
    -2 ^ 31 ≤ u32diff a b ∧ u32diff a b < 2 ^ 31 := by
  simp only [u32diff, toInt32]
  split <;> omega

/-- `uint64_t` subtraction of a quantity no larger than the minuend is
exact. -/
theorem sub_emod_toNat (T q : Nat) (hq : q ≤ T) (hT : T < 2 ^ 64) :
    (((T : Int) - ((q : Nat) : Int)) % 2 ^ 64).toNat = T - q := by
  omega

/-- C5: for two consecutive messages at capture times T0 and T1 where
the current message is accepted by the gate, its exposure counter
differs from the last one seen, the delta `dt` is positive and
`k = sample_timestamp - exposure_timestamp` is nonnegative, and the
64-bit products do not wrap, the absolute exposure time handed to the
tracker equals `T1 - (T1 - T0) * k / dt` exactly (integer division),
and the exposure bookkeeping is updated. -/
theorem rift_decode_sensor_message_exposure_spec (s : RiftDecodeState)
    (m : RiftSensorMessage) (T : Nat)
    (hacc : ¬(u32diff m.timestamp s.last_sample_timestamp <
          (m.num_samples : Int) * s.report_interval - 75 ∨
        u32diff m.timestamp s.last_sample_timestamp >
          (m.num_samples : Int) * s.report_interval + 75))
    (hexp : (m.exposure_count : Int) ≠ s.last_exposure_count)
    (hdtpos : 0 < u32diff m.timestamp s.last_sample_timestamp)
    (hk : 0 ≤ u32diff m.timestamp m.exposure_timestamp)
    (hT0 : s.last_message_time ≤ T) (hT : T < 2 ^ 64)
    (hprod : (T - s.last_message_time) *
        (u32diff m.timestamp m.exposure_timestamp).toNat < 2 ^ 64)
    (hquot : (T - s.last_message_time) *
        (u32diff m.timestamp m.exposure_timestamp).toNat /
        (u32diff m.timestamp s.last_sample_timestamp).toNat ≤ T) :
    (rift_decode_sensor_message s m T).exposure =
      some (m.exposure_timestamp,
        T - (T - s.last_message_time) *
          (u32diff m.timestamp m.exposure_timestamp).toNat /
          (u32diff m.timestamp s.last_sample_timestamp).toNat,
        m.led_pattern_phase) ∧
    (rift_decode_sensor_message s m T).state.last_exposure_timestamp =
      m.exposure_timestamp ∧
    (rift_decode_sensor_message s m T).state.last_exposure_count =
      (m.exposure_count : Int) := by
  have hbd := u32diff_bounds m.timestamp s.last_sample_timestamp
  have hbk := u32diff_bounds m.timestamp m.exposure_timestamp
  have e1 : (((T : Int) - (s.last_message_time : Int)) % 2 ^ 64).toNat =
      T - s.last_message_time := by omega
  have e2 : (u32diff m.timestamp m.exposure_timestamp % 2 ^ 64).toNat =
      (u32diff m.timestamp m.exposure_timestamp).toNat := by omega
  have e3 : (u32diff m.timestamp s.last_sample_timestamp % 2 ^ 64).toNat =
      (u32diff m.timestamp s.last_sample_timestamp).toNat := by omega
  have e4 : (T - s.last_message_time) *
      (u32diff m.timestamp m.exposure_timestamp).toNat % 2 ^ 64 =
      (T - s.last_message_time) *
      (u32diff m.timestamp m.exposure_timestamp).toNat :=
    Nat.mod_eq_of_lt hprod
  simp only [rift_decode_sensor_message]
  rw [if_neg hacc, if_pos hexp]
  refine ⟨?_, rfl, rfl⟩
  simp only [e1, e2, e3, e4]
  set q := (T - s.last_message_time) *
      (u32diff m.timestamp m.exposure_timestamp).toNat /
      (u32diff m.timestamp s.last_sample_timestamp).toNat with hq
  rw [sub_emod_toNat T q hquot hT]

/-- Witness for C5: T0 = 1000000 ns, T1 = 2000000 ns, dt = 1000 µs,
k = 500 µs gives exposure time 2000000 - 1000000 * 500 / 1000
= 1500000. -/
theorem rift_decode_sensor_message_exposure_spec_witness :
    (0 : Int) < u32diff 2000 1000 ∧ (0 : Int) ≤ u32diff 2000 1500 ∧
    (rift_decode_sensor_message
      { report_rate := 1000, report_interval := 1000,
        last_message_time := 1000000, last_sample_timestamp := 1000,
        last_exposure_timestamp := 0, last_exposure_count := 0 }
      { num_samples := 1, sample_count := 0, temperature := 0, timestamp := 2000,
        mag0 := 0, mag1 := 0, mag2 := 0, frame_count := 0, frame_timestamp := 0,
        frame_id := 0, led_pattern_phase := 7, exposure_count := 1,
        exposure_timestamp := 1500, sample0_accel := 0, sample0_gyro := 0,
        sample1_accel := 0, sample1_gyro := 0 } 2000000).exposure =
      some (1500, 1500000, 7) := by
  have h := rift_decode_sensor_message_exposure_spec
    { report_rate := 1000, report_interval := 1000,
      last_message_time := 1000000, last_sample_timestamp := 1000,
      last_exposure_timestamp := 0, last_exposure_count := 0 }
    { num_samples := 1, sample_count := 0, temperature := 0, timestamp := 2000,
      mag0 := 0, mag1 := 0, mag2 := 0, frame_count := 0, frame_timestamp := 0,
      frame_id := 0, led_pattern_phase := 7, exposure_count := 1,
      exposure_timestamp := 1500, sample0_accel := 0, sample0_gyro := 0,
      sample1_accel := 0, sample1_gyro := 0 } 2000000
    (by decide) (by decide) (by decide) (by decide) (by decide) (by decide)
    (by decide) (by decide)
  refine ⟨by decide, by decide, ?_⟩
  rw [h.1]
  decide

/-- Modelled from the spec: the three recognised boot-mode byte values
(normal, bootloader, radio-pairing).  Their numeric values live in the
missing header rift-hid-reports.h; nothing below depends on them beyond
their being distinct. -/
def RIFT_BOOT_NORMAL : Nat := 0

def RIFT_BOOT_BOOTLOADER : Nat := 1

def RIFT_BOOT_RADIO_PAIRING : Nat := 2

/-- rift.c `rift_get_boot_mode` with its single feature-report read
supplied by the oracle: transport errors propagate, an unrecognised
value is -EINVAL (-22), otherwise the (nonnegative) boot mode is
returned. -/
def rift_get_boot_mode (read : Except Int Nat) : Int :=
  match read with
  | .error e => e
  | .ok b =>
      if b ≠ RIFT_BOOT_NORMAL ∧ b ≠ RIFT_BOOT_BOOTLOADER ∧
          b ≠ RIFT_BOOT_RADIO_PAIRING then -22
      else (b : Nat)

/-- One `rift_position_report` (decoded fields that drive control flow
and the LED-model size; the position/direction payload does not). -/
structure PositionReport where
  num : Nat
  index : Nat
  type : Nat
deriving Repr, DecidableEq

/-- The read loop of `rift_get_positions` after the first report: at
entry `i` with current report `r`, an index at or past `num` is a
protocol error; after entry `num - 1` the loop breaks; otherwise the
next report is fetched (transport errors propagate).  The second
component counts the additional feature reports read.  `fuel` merely
bounds the structural recursion; instantiated with `num` it never runs
out before the break. -/
def positions_loop (f : Nat → Except Int PositionReport) (num : Nat) :
    Nat → Nat → PositionReport → Except Int Unit × Nat
  | 0, _, r => (if r.index ≥ num then .error (-1) else .ok (), 0)
  | fuel + 1, i, r =>
      if r.index ≥ num then (.error (-1), 0)
      else if i + 1 = num then (.ok (), 0)
      else
        match f (i + 1) with
        | .error e => (.error e, 1)
        | .ok r2 =>
            let res := positions_loop f num fuel (i + 1) r2
            (res.1, res.2 + 1)

/-- rift.c `rift_get_positions`: the first feature report gives `num`;
more than MAX_POSITIONS (45) entries is a protocol error (-1) before
any further read.  On success returns the LED-model size `num - 1`
(the `leds_init(num - 1)` argument).  The second component counts the
feature reports read. -/
def rift_get_positions (f : Nat → Except Int PositionReport) :
    Except Int Nat × Nat :=
  match f 0 with
  | .error e => (.error e, 1)
  | .ok r0 =>
      if r0.num > 45 then (.error (-1), 1)
      else
        let res := positions_loop f r0.num r0.num 0 r0
        (res.1.map fun _ => r0.num - 1, res.2 + 1)

/-- One `rift_led_pattern_report` (decoded fields). -/
structure LedPatternReport where
  num : Nat
  index : Nat
  pattern_length : Nat
  pattern : Nat
deriving Repr, DecidableEq

/-- The read loop of `rift_get_led_patterns`: index bound check, then
the per-word validation of `rift_decode_led_pattern` (length 10 and
symbols in {1,3}), break after entry `num - 1`, else next read. -/
def patterns_loop (g : Nat → Except Int LedPatternReport) (num : Nat) :
    Nat → Nat → LedPatternReport → Except Int Unit
  | 0, _, r =>
      if r.index ≥ num then .error (-1)
      else if (rift_decode_led_pattern r.pattern_length r.pattern).isNone then
        .error (-1)
      else .ok ()
  | fuel + 1, i, r =>
      if r.index ≥ num then .error (-1)
      else if (rift_decode_led_pattern r.pattern_length r.pattern).isNone then
        .error (-1)
      else if i + 1 = num then .ok ()
      else
        match g (i + 1) with
        | .error e => .error e
        | .ok r2 => patterns_loop g num fuel (i + 1) r2

/-- rift.c `rift_get_led_patterns`: a reported count above the known
LED-model size is a protocol error; each word is validated per §4.1. -/
def rift_get_led_patterns (g : Nat → Except Int LedPatternReport)
    (num_points : Nat) : Except Int Unit :=
  match g 0 with
  | .error e => .error e
  | .ok r0 =>
      if r0.num > num_points then .error (-1)
      else patterns_loop g r0.num r0.num 0 r0

/-- The transfers of one `rift_read_flash` call: its internal boot-mode
read, the set-address send, and the payload read. -/
structure FlashCall where
  boot : Except Int Nat
  set_addr : Except Int Unit
  payload : Except Int Unit

/-- rift.c `rift_read_flash` as its C `int` result: negative on
transport/boot-mode error, the (positive) boot mode when not in normal
mode (the read is skipped), 0 on success. -/
def rift_read_flash (fc : FlashCall) : Int :=
  let bm := rift_get_boot_mode fc.boot
  if bm < 0 then bm
  else if bm ≠ (RIFT_BOOT_NORMAL : Nat) then bm
  else
    match fc.set_addr with
    | .error e => e
    | .ok _ =>
        match fc.payload with
        | .error e => e
        | .ok _ => 0

/-- The flash-page read loop of `rift_start` (six pages on CV1): runs
calls `0..k-1` in order, aborting on the first negative return;
nonnegative returns (page skipped outside normal boot mode) continue. -/
def flash_steps (fs : Nat → FlashCall) : Nat → Except Int Unit
  | 0 => .ok ()
  | k + 1 =>
      match flash_steps fs k with
      | .error e => .error e
      | .ok _ =>
          let r := rift_read_flash (fs k)
          if r < 0 then .error r else .ok ()

/-- Transport oracle for one `rift_start` invocation: the outcome of
each feature-report round trip, in program order.  For a DK2 the
CV1-only fields are never consumed. -/
structure StartOracle where
  boot1 : Except Int Nat
  radio_address : Except Int Unit
  uuid : Except Int Unit
  boot2 : Except Int Nat
  firmware : Except Int Unit
  ranges : Except Int Unit
  imu_calibration : Except Int Unit
  positions : Nat → Except Int PositionReport
  flash : Nat → FlashCall
  patterns : Nat → Except Int LedPatternReport
  config : Except Int Unit
  rate_get : Except Int Nat
  rate_send : Except Int Unit
  tracking_send : Except Int Unit
  display_get : Except Int Unit
  display_send : Except Int Unit
  power_get : Except Int Unit
  power_send : Except Int Unit

/-- The CV1-only radio-address exchange at the top of `rift_start`. -/
def radio_step (ty : RiftType) (o : StartOracle) : Except Int Unit :=
  if ty = RiftType.CV1 then o.radio_address else .ok ()

/-- The CV1-only six flash-page reads of `rift_start`. -/
def flash_step (ty : RiftType) (o : StartOracle) : Except Int Unit :=
  if ty = RiftType.CV1 then flash_steps o.flash 6 else .ok ()

/-- The `rift_set_report_rate(rift, 1000)` call of `rift_start` (the
stored rate pair does not influence the outcome). -/
def rate_step (o : StartOracle) : Except Int Unit :=
  (rift_set_report_rate o.rate_get o.rate_send (0, 0) 1000).result

/-- The `rift_send_display(rift, TRUE, TRUE)` get-then-send exchange. -/
def display_step (o : StartOracle) : Except Int Unit :=
  match o.display_get with
  | .error e => .error e
  | .ok _ => o.display_send

/-- The CV1-only `rift_cv1_power_up` get-then-send exchange. -/
def power_step (ty : RiftType) (o : StartOracle) : Except Int Unit :=
  if ty = RiftType.CV1 then
    match o.power_get with
    | .error e => .error e
    | .ok _ => o.power_send
  else .ok ()

/-- Result of `rift_start`: the C return value, whether the pairing
flag was recorded from the first boot-mode read, and whether the LED
model was registered with the tracker (the final step). -/
structure StartResult where
  result : Except Int Unit
  pairing : Bool
  leds_registered : Bool

/-- The return value of rift.c `rift_start` over the transport
oracle: each step in program order, aborting with the step's error.
The two CV1 boot-mode reads and the firmware-version read are consumed
but their outcomes are checked only against specific modes
(`== RIFT_BOOT_RADIO_PAIRING` for the pairing flag, `== RIFT_BOOT_NORMAL`
to gate the opportunistic firmware-version read, itself unchecked), so
they never appear here. -/
def rift_start_result (ty : RiftType) (o : StartOracle) : Except Int Unit :=
  match radio_step ty o with
  | .error e => .error e
  | .ok _ =>
  match o.uuid with
  | .error e => .error e
  | .ok _ =>
  match o.ranges with
  | .error e => .error e
  | .ok _ =>
  match o.imu_calibration with
  | .error e => .error e
  | .ok _ =>
  match (rift_get_positions o.positions).1 with
  | .error e => .error e
  | .ok num_points =>
  match flash_step ty o with
  | .error e => .error e
  | .ok _ =>
  match rift_get_led_patterns o.patterns num_points with
  | .error e => .error e
  | .ok _ =>
  match o.config with
  | .error e => .error e
  | .ok _ =>
  match rate_step o with
  | .error e => .error e
  | .ok _ =>
  match o.tracking_send with
  | .error e => .error e
  | .ok _ =>
  match display_step o with
  | .error e => .error e
  | .ok _ =>
  match power_step ty o with
  | .error e => .error e
  | .ok _ => .ok ()

/-- rift.c `rift_start`: the C return value, the pairing flag recorded
from the first boot-mode read, and the tracker registration of the LED
model, which happens exactly on full success (the last step). -/
def rift_start (ty : RiftType) (o : StartOracle) : StartResult :=
  { result := rift_start_result ty o,
    pairing := ty == RiftType.CV1 &&
      rift_get_boot_mode o.boot1 == ((RIFT_BOOT_RADIO_PAIRING : Nat) : Int),
    leds_registered := match rift_start_result ty o with
      | .ok _ => true
      | .error _ => false }

/-- C7: if the factory position table's first report declares more than
45 entries, `rift_get_positions` fails with the protocol-violation
error -1 after exactly that one read — no further report is fetched —
and, with every earlier bring-up step succeeding, `rift_start` aborts
with that error. -/
theorem rift_start_positions_overflow (ty : RiftType) (o : StartOracle)
    (r0 : PositionReport)
    (h0 : o.positions 0 = .ok r0) (hnum : r0.num > 45)
    (hradio : radio_step ty o = .ok ()) (huuid : o.uuid = .ok ())
    (hranges : o.ranges = .ok ()) (hcal : o.imu_calibration = .ok ()) :
    rift_get_positions o.positions = (.error (-1), 1) ∧
    (rift_start ty o).result = .error (-1) := by
  have hpos : rift_get_positions o.positions = (.error (-1), 1) := by
    simp [rift_get_positions, h0, hnum]
  exact ⟨hpos, by simp [rift_start, rift_start_result, hradio, huuid, hranges, hcal, hpos]⟩

/-- Witness for C7: a device reporting 46 position entries with every
prior step succeeding makes `start` fail with -1 after one read. -/
theorem rift_start_positions_overflow_witness :
    (StartOracle.mk (.ok 0) (.ok ()) (.ok ()) (.ok 0) (.ok ()) (.ok ())
      (.ok ()) (fun _ => .ok { num := 46, index := 0, type := 0 })
      (fun _ => { boot := .ok 0, set_addr := .ok (), payload := .ok () })
      (fun _ => .ok
        { num := 1, index := 0, pattern_length := 10, pattern := 0x55555 })
      (.ok ()) (.ok 1000) (.ok ()) (.ok ()) (.ok ()) (.ok ()) (.ok ())
      (.ok ())).positions 0 = .ok { num := 46, index := 0, type := 0 } ∧
    (46 : Nat) > 45 ∧
    rift_get_positions
      (StartOracle.mk (.ok 0) (.ok ()) (.ok ()) (.ok 0) (.ok ()) (.ok ())
        (.ok ()) (fun _ => .ok { num := 46, index := 0, type := 0 })
        (fun _ => { boot := .ok 0, set_addr := .ok (), payload := .ok () })
        (fun _ => .ok
          { num := 1, index := 0, pattern_length := 10, pattern := 0x55555 })
        (.ok ()) (.ok 1000) (.ok ()) (.ok ()) (.ok ()) (.ok ()) (.ok ())
        (.ok ())).positions = (.error (-1), 1) ∧
    (rift_start RiftType.CV1
      (StartOracle.mk (.ok 0) (.ok ()) (.ok ()) (.ok 0) (.ok ()) (.ok ())
        (.ok ()) (fun _ => .ok { num := 46, index := 0, type := 0 })
        (fun _ => { boot := .ok 0, set_addr := .ok (), payload := .ok () })
        (fun _ => .ok
          { num := 1, index := 0, pattern_length := 10, pattern := 0x55555 })
        (.ok ()) (.ok 1000) (.ok ()) (.ok ()) (.ok ()) (.ok ()) (.ok ())
        (.ok ()))).result = .error (-1) := by
  have h := rift_start_positions_overflow RiftType.CV1
    (StartOracle.mk (.ok 0) (.ok ()) (.ok ()) (.ok 0) (.ok ()) (.ok ())
      (.ok ()) (fun _ => .ok { num := 46, index := 0, type := 0 })
      (fun _ => { boot := .ok 0, set_addr := .ok (), payload := .ok () })
      (fun _ => .ok
        { num := 1, index := 0, pattern_length := 10, pattern := 0x55555 })
      (.ok ()) (.ok 1000) (.ok ()) (.ok ()) (.ok ()) (.ok ()) (.ok ())
      (.ok ()))
    { num := 46, index := 0, type := 0 }
    rfl (by norm_num) rfl rfl rfl rfl
  exact ⟨rfl, by norm_num, h.1, h.2⟩

/-- Counterexample to C8 as stated: a CV1 whose first boot-mode read
fails with a transport error (-5) while every other bring-up step
succeeds still completes `start` successfully — the boot-mode read's
error return at the top of `rift_start` (rift.c line 694) is checked
only for `== RIFT_BOOT_RADIO_PAIRING` and is otherwise silently
ignored, so this step's failure neither aborts nor propagates. -/
theorem rift_start_ignores_boot_error :
    (StartOracle.mk (.error (-5)) (.ok ()) (.ok ()) (.ok 0) (.ok ()) (.ok ())
      (.ok ()) (fun i => .ok { num := 2, index := i, type := 0 })
      (fun _ => { boot := .ok 0, set_addr := .ok (), payload := .ok () })
      (fun _ => .ok
        { num := 1, index := 0, pattern_length := 10, pattern := 0x55555 })
      (.ok ()) (.ok 1000) (.ok ()) (.ok ()) (.ok ()) (.ok ()) (.ok ())
      (.ok ())).boot1 = .error (-5) ∧
    rift_get_boot_mode (.error (-5)) < 0 ∧
    (rift_start RiftType.CV1
      (StartOracle.mk (.error (-5)) (.ok ()) (.ok ()) (.ok 0) (.ok ()) (.ok ())
        (.ok ()) (fun i => .ok { num := 2, index := i, type := 0 })
        (fun _ => { boot := .ok 0, set_addr := .ok (), payload := .ok () })
        (fun _ => .ok
          { num := 1, index := 0, pattern_length := 10, pattern := 0x55555 })
        (.ok ()) (.ok 1000) (.ok ()) (.ok ()) (.ok ()) (.ok ()) (.ok ())
        (.ok ()))).result = .ok () := by
  refine ⟨rfl, by decide, ?_⟩
  rfl

/-- The bring-up steps up to and including the position-table read all
succeeded, with LED-model size `n`. -/
def start_prefix_ok (ty : RiftType) (o : StartOracle) (n : Nat) : Prop :=
  radio_step ty o = .ok () ∧ o.uuid = .ok () ∧ o.ranges = .ok () ∧
  o.imu_calibration = .ok () ∧ (rift_get_positions o.positions).1 = .ok n

/-- C8 (amended): during bring-up, a failure of any step other than the
two boot-mode reads and the firmware-version read aborts `rift_start`
and propagates that step's error to the caller; the boot-mode reads and
the firmware-version read never affect start's outcome (their errors
are silently ignored — they only gate the pairing flag and the
opportunistic firmware read). -/
theorem rift_start_error_propagation (ty : RiftType) (o : StartOracle)
    (e : Int) :
    (∀ b1 b2 fw,
      (rift_start ty
        { o with boot1 := b1, boot2 := b2, firmware := fw }).result =
        (rift_start ty o).result) ∧
    (radio_step ty o = .error e → (rift_start ty o).result = .error e) ∧
    (radio_step ty o = .ok () → o.uuid = .error e →
      (rift_start ty o).result = .error e) ∧
    (radio_step ty o = .ok () → o.uuid = .ok () → o.ranges = .error e →
      (rift_start ty o).result = .error e) ∧
    (radio_step ty o = .ok () → o.uuid = .ok () → o.ranges = .ok () →
      o.imu_calibration = .error e → (rift_start ty o).result = .error e) ∧
    (radio_step ty o = .ok () → o.uuid = .ok () → o.ranges = .ok () →
      o.imu_calibration = .ok () →
      (rift_get_positions o.positions).1 = .error e →
      (rift_start ty o).result = .error e) ∧
    (∀ n, start_prefix_ok ty o n → flash_step ty o = .error e →
      (rift_start ty o).result = .error e) ∧
    (∀ n, start_prefix_ok ty o n → flash_step ty o = .ok () →
      rift_get_led_patterns o.patterns n = .error e →
      (rift_start ty o).result = .error e) ∧
    (∀ n, start_prefix_ok ty o n → flash_step ty o = .ok () →
      rift_get_led_patterns o.patterns n = .ok () → o.config = .error e →
      (rift_start ty o).result = .error e) ∧
    (∀ n, start_prefix_ok ty o n → flash_step ty o = .ok () →
      rift_get_led_patterns o.patterns n = .ok () → o.config = .ok () →
      rate_step o = .error e → (rift_start ty o).result = .error e) ∧
    (∀ n, start_prefix_ok ty o n → flash_step ty o = .ok () →
      rift_get_led_patterns o.patterns n = .ok () → o.config = .ok () →
      rate_step o = .ok () → o.tracking_send = .error e →
      (rift_start ty o).result = .error e) ∧
    (∀ n, start_prefix_ok ty o n → flash_step ty o = .ok () →
      rift_get_led_patterns o.patterns n = .ok () → o.config = .ok () →
      rate_step o = .ok () → o.tracking_send = .ok () →
      display_step o = .error e → (rift_start ty o).result = .error e) ∧
    (∀ n, start_prefix_ok ty o n → flash_step ty o = .ok () →
      rift_get_led_patterns o.patterns n = .ok () → o.config = .ok () →
      rate_step o = .ok () → o.tracking_send = .ok () →
      display_step o = .ok () → power_step ty o = .error e →
      (rift_start ty o).result = .error e) := by
  refine ⟨fun b1 b2 fw => rfl, ?_, ?_, ?_, ?_, ?_, ?_, ?_, ?_, ?_, ?_, ?_, ?_⟩
  · intro h1
    simp [rift_start, rift_start_result, h1]
  · intro h1 h2
    simp [rift_start, rift_start_result, h1, h2]
  · intro h1 h2 h3
    simp [rift_start, rift_start_result, h1, h2, h3]
  · intro h1 h2 h3 h4
    simp [rift_start, rift_start_result, h1, h2, h3, h4]
  · intro h1 h2 h3 h4 h5
    simp [rift_start, rift_start_result, h1, h2, h3, h4, h5]
  · rintro n ⟨h1, h2, h3, h4, h5⟩ h6
    simp [rift_start, rift_start_result, h1, h2, h3, h4, h5, h6]
  · rintro n ⟨h1, h2, h3, h4, h5⟩ h6 h7
    simp [rift_start, rift_start_result, h1, h2, h3, h4, h5, h6, h7]
  · rintro n ⟨h1, h2, h3, h4, h5⟩ h6 h7 h8
    simp [rift_start, rift_start_result, h1, h2, h3, h4, h5, h6, h7, h8]
  · rintro n ⟨h1, h2, h3, h4, h5⟩ h6 h7 h8 h9
    simp [rift_start, rift_start_result, h1, h2, h3, h4, h5, h6, h7, h8, h9]
  · rintro n ⟨h1, h2, h3, h4, h5⟩ h6 h7 h8 h9 h10
    simp [rift_start, rift_start_result, h1, h2, h3, h4, h5, h6, h7, h8, h9,
      h10]
  · rintro n ⟨h1, h2, h3, h4, h5⟩ h6 h7 h8 h9 h10 h11
    simp [rift_start, rift_start_result, h1, h2, h3, h4, h5, h6, h7, h8, h9,
      h10, h11]
  · rintro n ⟨h1, h2, h3, h4, h5⟩ h6 h7 h8 h9 h10 h11 h12
    simp [rift_start, rift_start_result, h1, h2, h3, h4, h5, h6, h7, h8, h9,
      h10, h11, h12]

/-- Witness for C8's amended theorem: with everything up to the UUID
read succeeding and the UUID read failing with -7, start returns -7. -/
theorem rift_start_error_propagation_witness :
    radio_step RiftType.CV1
      (StartOracle.mk (.ok 0) (.ok ()) (.error (-7)) (.ok 0) (.ok ()) (.ok ())
        (.ok ()) (fun i => .ok { num := 2, index := i, type := 0 })
        (fun _ => { boot := .ok 0, set_addr := .ok (), payload := .ok () })
        (fun _ => .ok
          { num := 1, index := 0, pattern_length := 10, pattern := 0x55555 })
        (.ok ()) (.ok 1000) (.ok ()) (.ok ()) (.ok ()) (.ok ()) (.ok ())
        (.ok ())) = .ok () ∧
    (rift_start RiftType.CV1
      (StartOracle.mk (.ok 0) (.ok ()) (.error (-7)) (.ok 0) (.ok ()) (.ok ())
        (.ok ()) (fun i => .ok { num := 2, index := i, type := 0 })
        (fun _ => { boot := .ok 0, set_addr := .ok (), payload := .ok () })
        (fun _ => .ok
          { num := 1, index := 0, pattern_length := 10, pattern := 0x55555 })
        (.ok ()) (.ok 1000) (.ok ()) (.ok ()) (.ok ()) (.ok ()) (.ok ())
        (.ok ()))).result = .error (-7) := by
  have h := (rift_start_error_propagation RiftType.CV1
    (StartOracle.mk (.ok 0) (.ok ()) (.error (-7)) (.ok 0) (.ok ()) (.ok ())
      (.ok ()) (fun i => .ok { num := 2, index := i, type := 0 })
      (fun _ => { boot := .ok 0, set_addr := .ok (), payload := .ok () })
      (fun _ => .ok
        { num := 1, index := 0, pattern_length := 10, pattern := 0x55555 })
      (.ok ()) (.ok 1000) (.ok ()) (.ok ()) (.ok ()) (.ok ()) (.ok ())
      (.ok ())) (-7)).2.2.1 rfl rfl
  exact ⟨rfl, h⟩
